import Mathlib

/-!
Shallow embedding of the JTAG-PDI capture applet
(`src/software/glasgow/applet/interface/jtag_pdi/__init__.py`).

The file models the two synchronous components of that applet:

* `JTAGPDI.tapStep` — one bus-clock edge of the `JTAGTAP` elaboratable
  (source lines 22-174): the 16-state TAP FSM, the `shiftDR`/`shiftIR`
  flags, the 32-bit data shift registers, the instruction register and
  the IDCODE / PDI frame capture at UPDATE-DR.
* `JTAGPDI.dStep` — one processing-clock cycle of the `PDIDissector`
  elaboratable (source lines 192-388): the frame-handling FSM
  (IDLE / CHECK-PARITY / HANDLE-WRITE / HANDLE-READ / SEND-DATA /
  PARITY-ERROR) and the count/argument FSM.

nmigen semantics used for the translation: every `m.d.jtag` / `m.d.sync`
assignment takes effect at the end of the clock edge and its right-hand
side reads the pre-edge values; when two synchronous assignments to the
same signal are active on the same edge, the one later in the module wins;
`m.d.comb` signals are functions of the current state.  Each Lean step
function is therefore written per signal: each field of the next state is
one expression over the previous state and the sampled inputs.

Machine integers are `Nat` with explicit truncation where the source's
fixed signal widths matter (`% 2 ^ 32` on 32-bit signals, wrap-around
decrement of the 32-bit counters, `% 2 ^ 9` for the 10-bit slice assigned
to a 9-bit signal).

One deliberate point of fidelity: line 300 of the source reads
`m.state = "DECODE"` — a plain Python attribute assignment, not the
nmigen FSM transition `m.next = "DECODE"` used everywhere else in the
file — so the count/argument FSM never leaves its IDLE state.  The
embedding reproduces that: `dStep` keeps `fsm2 = IDLE` in the IDLE case,
and the remaining count-FSM states are translated faithfully even though
they are unreachable.
-/

namespace JTAGPDI

/-- The 16 TAP states of the `with m.FSM(domain = 'jtag')` block,
source lines 57-142. -/
inductive TapFsm
  | RESET | IDLE
  | SELECTDR | CAPTUREDR | SHIFTDR | EXIT1DR | PAUSEDR | EXIT2DR | UPDATEDR
  | SELECTIR | CAPTUREIR | SHIFTIR | EXIT1IR | PAUSEIR | EXIT2IR | UPDATEIR
  deriving DecidableEq

/-- One sampled bus-clock edge: the `tms`, `tdi`, `tdo` pad inputs. -/
structure TapIn where
  tms : Bool
  tdi : Bool
  tdo : Bool
  deriving DecidableEq

/-- The synchronous state of `JTAGTAP.elaborate`: the FSM state register and
every `Signal` assigned in the `jtag` domain. -/
structure TapState where
  fsm : TapFsm
  shiftDR : Bool
  shiftIR : Bool
  dataIn : Nat
  dataOut : Nat
  idCode : Nat
  idCodeReady : Bool
  pdiDataIn : Nat
  pdiDataOut : Nat
  pdiReady : Bool
  insn : Nat
  insnNext : Nat
  deriving DecidableEq

/-- Numeric value of a sampled bit. -/
def b2n (b : Bool) : Nat := if b then 1 else 0

/-- `TAPInstruction.idCode = 0x3` (source line 10). -/
def idCodeInsn : Nat := 3

/-- `TAPInstruction.pdiCom = 0x7` (source line 11). -/
def pdiComInsn : Nat := 7

/-- The TAP FSM transition table exactly as the `m.next` statements of
source lines 57-142 write it, keyed by (current state, tms). -/
def tapFsmNext : TapFsm → Bool → TapFsm
  | .RESET, false => .IDLE
  | .RESET, true => .RESET
  | .IDLE, false => .IDLE
  | .IDLE, true => .SELECTDR
  | .SELECTDR, false => .CAPTUREDR
  | .SELECTDR, true => .SELECTIR
  | .CAPTUREDR, false => .EXIT1DR
  | .CAPTUREDR, true => .SHIFTDR
  | .SHIFTDR, false => .SHIFTDR
  | .SHIFTDR, true => .EXIT1DR
  | .EXIT1DR, false => .PAUSEDR
  | .EXIT1DR, true => .UPDATEDR
  | .PAUSEDR, false => .PAUSEDR
  | .PAUSEDR, true => .EXIT2DR
  | .EXIT2DR, false => .SHIFTDR
  | .EXIT2DR, true => .UPDATEDR
  | .UPDATEDR, false => .IDLE
  | .UPDATEDR, true => .SELECTDR
  | .SELECTIR, false => .CAPTUREDR
  | .SELECTIR, true => .RESET
  | .CAPTUREIR, false => .EXIT1IR
  | .CAPTUREIR, true => .SHIFTIR
  | .SHIFTIR, false => .SHIFTIR
  | .SHIFTIR, true => .EXIT1IR
  | .EXIT1IR, false => .PAUSEIR
  | .EXIT1IR, true => .UPDATEIR
  | .PAUSEIR, false => .PAUSEIR
  | .PAUSEIR, true => .EXIT2IR
  | .EXIT2IR, false => .SHIFTIR
  | .EXIT2IR, true => .UPDATEIR
  | .UPDATEIR, false => .IDLE
  | .UPDATEIR, true => .SELECTDR

/-- Modelled from the spec: the transition table written out in §4.1 of the
specification ("RESET→(tms=0)IDLE/(1)RESET; ...; SELECT-IR→(0)CAPTURE-IR/
(1)RESET; ..."), used only to compare the code's table against the spec's.
It differs from `tapFsmNext` in the SELECT-IR / tms=0 entry. -/
def specTapNext : TapFsm → Bool → TapFsm
  | .RESET, false => .IDLE
  | .RESET, true => .RESET
  | .IDLE, false => .IDLE
  | .IDLE, true => .SELECTDR
  | .SELECTDR, false => .CAPTUREDR
  | .SELECTDR, true => .SELECTIR
  | .CAPTUREDR, false => .EXIT1DR
  | .CAPTUREDR, true => .SHIFTDR
  | .SHIFTDR, false => .SHIFTDR
  | .SHIFTDR, true => .EXIT1DR
  | .EXIT1DR, false => .PAUSEDR
  | .EXIT1DR, true => .UPDATEDR
  | .PAUSEDR, false => .PAUSEDR
  | .PAUSEDR, true => .EXIT2DR
  | .EXIT2DR, false => .SHIFTDR
  | .EXIT2DR, true => .UPDATEDR
  | .UPDATEDR, false => .IDLE
  | .UPDATEDR, true => .SELECTDR
  | .SELECTIR, false => .CAPTUREIR
  | .SELECTIR, true => .RESET
  | .CAPTUREIR, false => .EXIT1IR
  | .CAPTUREIR, true => .SHIFTIR
  | .SHIFTIR, false => .SHIFTIR
  | .SHIFTIR, true => .EXIT1IR
  | .EXIT1IR, false => .PAUSEIR
  | .EXIT1IR, true => .UPDATEIR
  | .PAUSEIR, false => .PAUSEIR
  | .PAUSEIR, true => .EXIT2IR
  | .EXIT2IR, false => .SHIFTIR
  | .EXIT2IR, true => .UPDATEIR
  | .UPDATEIR, false => .IDLE
  | .UPDATEIR, true => .SELECTDR

/-- One `jtag`-domain clock edge of `JTAGTAP.elaborate` (source lines
57-165), per signal.  Field by field:

* `fsm`: the `m.next` table above.
* `shiftDR`: cleared leaving RESET (line 61), set on CAPTURE-DR with tms
  (line 81), cleared on SHIFT-DR with tms (line 87); otherwise held.
* `shiftIR`: the IR-side analogue (lines 62, 116, 122).
* `dataIn`/`dataOut`: under `m.If(shiftDR)` (lines 144-148),
  `Cat(dataIn[1:32], tdi)` — drop bit 0, sampled bit becomes bit 31.
* `idCode`/`idCodeReady`: `m.Elif(updateDR)` with `insn == idCode`
  (lines 149-154); `idCodeReady` is also cleared in the IDLE state on tms
  (line 70).  `updateDR` is the comb strobe of the UPDATE-DR state
  (line 103), so the `Elif` arm requires `shiftDR` low.
* `pdiDataIn`/`pdiDataOut`/`pdiReady`: the `insn == pdiCom` arm (lines
  155-160); `dataIn[22:32]` is a 10-bit slice assigned to the 9-bit
  `pdiDataIn`, hence the `% 2 ^ 9` truncation; `pdiReady` is cleared in
  IDLE on tms (line 69).
* `insn`: preloaded to `idCode` when leaving RESET (line 63), otherwise
  loaded from `insnNext` under `m.Elif(updateIR)` (lines 164-165).
* `insnNext`: `Cat(insnNext[1:4], tdi)` under `m.If(shiftIR)` (line 163).
-/
def tapStep (s : TapState) (i : TapIn) : TapState where
  fsm := tapFsmNext s.fsm i.tms
  shiftDR :=
    match s.fsm, i.tms with
    | .RESET, false => false
    | .CAPTUREDR, true => true
    | .SHIFTDR, true => false
    | _, _ => s.shiftDR
  shiftIR :=
    match s.fsm, i.tms with
    | .RESET, false => false
    | .CAPTUREIR, true => true
    | .SHIFTIR, true => false
    | _, _ => s.shiftIR
  dataIn := if s.shiftDR then s.dataIn / 2 + b2n i.tdi * 2 ^ 31 else s.dataIn
  dataOut := if s.shiftDR then s.dataOut / 2 + b2n i.tdo * 2 ^ 31 else s.dataOut
  idCode :=
    if s.shiftDR = false ∧ s.fsm = .UPDATEDR ∧ s.insn = idCodeInsn then s.dataIn
    else s.idCode
  idCodeReady :=
    if s.fsm = .IDLE ∧ i.tms = true then false
    else if s.shiftDR = false ∧ s.fsm = .UPDATEDR ∧ s.insn = idCodeInsn then true
    else s.idCodeReady
  pdiDataIn :=
    if s.shiftDR = false ∧ s.fsm = .UPDATEDR ∧ s.insn ≠ idCodeInsn ∧ s.insn = pdiComInsn
    then s.dataIn / 2 ^ 22 % 2 ^ 9 else s.pdiDataIn
  pdiDataOut :=
    if s.shiftDR = false ∧ s.fsm = .UPDATEDR ∧ s.insn ≠ idCodeInsn ∧ s.insn = pdiComInsn
    then s.dataOut / 2 ^ 22 % 2 ^ 9 else s.pdiDataOut
  pdiReady :=
    if s.fsm = .IDLE ∧ i.tms = true then false
    else if s.shiftDR = false ∧ s.fsm = .UPDATEDR ∧ s.insn ≠ idCodeInsn ∧ s.insn = pdiComInsn
    then true
    else s.pdiReady
  insn :=
    if s.fsm = .RESET ∧ i.tms = false then idCodeInsn
    else if s.shiftIR = false ∧ s.fsm = .UPDATEIR then s.insnNext
    else s.insn
  insnNext := if s.shiftIR then s.insnNext / 2 + b2n i.tdi * 2 ^ 3 else s.insnNext

/-- Power-on state: the FSM starts in its first declared state RESET and
every `Signal` resets to 0. -/
def tapInit : TapState where
  fsm := .RESET
  shiftDR := false
  shiftIR := false
  dataIn := 0
  dataOut := 0
  idCode := 0
  idCodeReady := false
  pdiDataIn := 0
  pdiDataOut := 0
  pdiReady := false
  insn := 0
  insnNext := 0

/-- Run the TAP over a list of sampled edges. -/
def runTap (s : TapState) (edges : List TapIn) : TapState :=
  edges.foldl tapStep s

/-- An edge with every pad high. -/
def tapAllHigh : TapIn := ⟨true, true, true⟩

/-- The frame-handling FSM of `PDIDissector.elaborate`
(`with m.FSM()` at source line 237). -/
inductive DFsm1
  | IDLE | CHECKPARITY | HANDLEWRITE | HANDLEREAD | SENDDATA | PARITYERROR
  deriving DecidableEq

/-- The count/argument FSM of `PDIDissector.elaborate`
(`with m.FSM()` at source line 296). -/
inductive DFsm2
  | IDLE | DECODE
  | LDS | LD | STS | ST | LDCS | STCS | REPEAT | KEY
  | CAPTUREREPEAT | UPDATEREPEAT
  deriving DecidableEq

/-- One processing-clock cycle of inputs to the dissector: the
`FFSynchronizer` outputs `pdiDataIn`, `pdiDataOut` (9-bit frames) and
`pdiReadyNext` (source lines 213-217).  The synchronizers themselves are
pure two-register delays of the TAP's outputs, so they are modelled as the
input sequence. -/
structure DIn where
  pdiDataIn : Nat
  pdiDataOut : Nat
  pdiReadyNext : Bool
  deriving DecidableEq

/-- The synchronous state of `PDIDissector.elaborate`: both FSM state
registers and every `Signal` assigned in the `sync` domain. -/
structure DState where
  pdiReady : Bool
  process : Bool
  parityInOK : Bool
  parityOutOK : Bool
  data : Nat
  opcode : Nat
  args : Nat
  readCount : Nat
  writeCount : Nat
  repCount : Nat
  updateCounts : Bool
  repeatData : Nat
  fsm1 : DFsm1
  fsm2 : DFsm2
  deriving DecidableEq

/-- `PDIOpcodes.IDLE = 0xf` (source line 182). -/
def opIDLE : Nat := 15

/-- `PDIOpcodes.REPEAT = 5` (source lines 176-180). -/
def opREPEAT : Nat := 5

/-- XOR-reduce of a 9-bit value: `pdiData.xor()` on the 9-bit signals
(source lines 227-228). -/
def xorReduce9 (x : Nat) : Bool :=
  Bool.xor (x.testBit 0) (Bool.xor (x.testBit 1) (Bool.xor (x.testBit 2)
    (Bool.xor (x.testBit 3) (Bool.xor (x.testBit 4) (Bool.xor (x.testBit 5)
      (Bool.xor (x.testBit 6) (Bool.xor (x.testBit 7) (x.testBit 8))))))))

/-- Wrap-around decrement of a 32-bit counter: `count - 1` on a
`Signal(32)` (source lines 263, 272). -/
def decWrap (c : Nat) : Nat := if c = 0 then 2 ^ 32 - 1 else c - 1

/-- `sizeA.eq(args[2:4] + 1)` (source line 292). -/
def sizeA (args : Nat) : Nat := args / 4 % 4 + 1

/-- `sizeB.eq(args[0:2] + 1)` (source line 293). -/
def sizeB (args : Nat) : Nat := args % 4 + 1

/-- The repeat-count assembly of the UPDATE-REPEAT state (source lines
375-386), selected by `args[0:2]`.  `Cat` places its first argument in the
least-significant bits.  In the selector-3 case the concatenation
`Cat(repeatData[16:32], repeatData[16:24], repeatData[8:16], repeatData[0:8])`
is 48 bits wide and is truncated to the 32-bit `repCount`, which drops the
final `repeatData[0:8]` term entirely. -/
def assembleRepeat (sel : Nat) (d : Nat) : Nat :=
  match sel with
  | 0 => d % 2 ^ 8
  | 1 => d / 2 ^ 8 % 2 ^ 8 + d % 2 ^ 8 * 2 ^ 8
  | 2 => d / 2 ^ 16 % 2 ^ 8 + d / 2 ^ 8 % 2 ^ 8 * 2 ^ 8 + d % 2 ^ 8 * 2 ^ 16
  | _ => d / 2 ^ 16 % 2 ^ 16 + d / 2 ^ 16 % 2 ^ 8 * 2 ^ 16 + d / 2 ^ 8 % 2 ^ 8 * 2 ^ 24

/-- The comb pulse `pdiStrobe.eq(pdiReadyNext & ~pdiReady)` (source
line 219). -/
def pdiStrobe (s : DState) (i : DIn) : Bool := i.pdiReadyNext && !s.pdiReady

/-- The comb pulse `updateRepeat`, driven high in HANDLE-WRITE while the
current opcode register is REPEAT (source lines 266-267). -/
def updateRepeat (s : DState) : Prop := s.fsm1 = .HANDLEWRITE ∧ s.opcode = opREPEAT

instance (s : DState) : Decidable (updateRepeat s) := by
  unfold updateRepeat; infer_instance

/-- The comb output `self.sendHeader`, driven high in HANDLE-WRITE for a
new command byte (source line 259). -/
def sendHeaderPulse (s : DState) : Prop := s.fsm1 = .HANDLEWRITE ∧ s.opcode = opIDLE

/-- The comb output `self.ready`, driven high in SEND-DATA (source
line 280). -/
def readyPulse (s : DState) : Prop := s.fsm1 = .SENDDATA

/-- The comb output `self.error`, driven high in PARITY-ERROR (source
line 283). -/
def errorPulse (s : DState) : Prop := s.fsm1 = .PARITYERROR

/-- One `sync`-domain cycle of `PDIDissector.elaborate` (source lines
219-388), per signal.  Field by field:

* `pdiReady`, `process`: lines 220-223.
* `parityInOK`/`parityOutOK`: latched on `pdiStrobe` (lines 225-229);
  even parity means the XOR-reduce of the 9 frame bits is 0.
* `fsm1`: the `m.next` statements of the frame-handling FSM
  (lines 237-285).
* `fsm2`: the `m.next` statements of the count FSM (lines 296-386).
  In its IDLE state the source has `m.state = "DECODE"` (line 300) — a
  plain Python attribute assignment, not `m.next` — so no transition
  occurs there and the FSM stays in IDLE.
* `data`: latched in HANDLE-WRITE from the host frame, in HANDLE-READ
  from the target frame (lines 255, 261, 271).
* `opcode`: a new command byte latches `pdiDataIn[5:8]` (line 256);
  SEND-DATA resets it to IDLE when both counters are 0 and no
  `updateCounts` is pending (lines 278-279); PARITY-ERROR forces it to
  IDLE (line 284).
* `args`: latched in the count FSM's IDLE state on `updateCounts`
  (line 299).
* `writeCount`/`readCount`: decremented with 32-bit wrap-around in
  HANDLE-WRITE (non-command byte) / HANDLE-READ (lines 263, 272); the
  count-FSM states (lines 319-368) load them, and being later in the
  module those assignments win on a shared cycle.
* `repCount`: zeroed by LD/ST (lines 329, 342), loaded by UPDATE-REPEAT
  (lines 375-386).
* `repeatData`: `Cat(pdiDataIn[0:8], repeatData[0:24])` in
  CAPTURE-REPEAT under `updateRepeat` (line 372).
-/
def dStep (s : DState) (i : DIn) : DState where
  pdiReady := i.pdiReadyNext
  process := pdiStrobe s i
  parityInOK := if pdiStrobe s i then !xorReduce9 i.pdiDataIn else s.parityInOK
  parityOutOK := if pdiStrobe s i then !xorReduce9 i.pdiDataOut else s.parityOutOK
  data :=
    if s.fsm1 = .HANDLEWRITE then i.pdiDataIn % 2 ^ 8
    else if s.fsm1 = .HANDLEREAD then i.pdiDataOut % 2 ^ 8
    else s.data
  opcode :=
    if s.fsm1 = .HANDLEWRITE ∧ s.opcode = opIDLE then i.pdiDataIn / 2 ^ 5 % 2 ^ 3
    else if s.fsm1 = .SENDDATA ∧ s.updateCounts = false ∧
            s.writeCount = 0 ∧ s.readCount = 0 then opIDLE
    else if s.fsm1 = .PARITYERROR then opIDLE
    else s.opcode
  args := if s.fsm2 = .IDLE ∧ s.updateCounts = true then i.pdiDataIn % 2 ^ 4 else s.args
  readCount :=
    match s.fsm2 with
    | .LDS => sizeB s.args
    | .LD => (s.repCount + 1) * sizeB s.args % 2 ^ 32
    | .STS => 0
    | .ST => 0
    | .LDCS => 1
    | .STCS => 0
    | .REPEAT => 0
    | .KEY => 0
    | _ => if s.fsm1 = .HANDLEREAD then decWrap s.readCount else s.readCount
  writeCount :=
    match s.fsm2 with
    | .LDS => sizeA s.args
    | .LD => 0
    | .STS => sizeA s.args + sizeB s.args
    | .ST => (s.repCount + 1) * sizeB s.args % 2 ^ 32
    | .LDCS => 0
    | .STCS => 1
    | .REPEAT => sizeB s.args
    | .KEY => 8
    | _ =>
      if s.fsm1 = .HANDLEWRITE ∧ s.opcode ≠ opIDLE then decWrap s.writeCount
      else s.writeCount
  repCount :=
    match s.fsm2 with
    | .LD => 0
    | .ST => 0
    | .UPDATEREPEAT => assembleRepeat (s.args % 4) s.repeatData
    | _ => s.repCount
  updateCounts :=
    if s.fsm1 = .HANDLEWRITE ∧ s.opcode = opIDLE then true
    else if s.fsm1 = .SENDDATA ∧ s.updateCounts = true then false
    else s.updateCounts
  repeatData :=
    if s.fsm2 = .CAPTUREREPEAT ∧ updateRepeat s
    then i.pdiDataIn % 2 ^ 8 + s.repeatData % 2 ^ 24 * 2 ^ 8
    else s.repeatData
  fsm1 :=
    match s.fsm1 with
    | .IDLE => if s.process then .CHECKPARITY else .IDLE
    | .CHECKPARITY =>
      if s.opcode = opIDLE ∨ s.writeCount ≠ 0 then
        if s.parityInOK then .HANDLEWRITE else .PARITYERROR
      else
        if s.parityOutOK then .HANDLEREAD else .PARITYERROR
    | .HANDLEWRITE => .SENDDATA
    | .HANDLEREAD => .SENDDATA
    | .SENDDATA => .IDLE
    | .PARITYERROR => .IDLE
  fsm2 :=
    match s.fsm2 with
    | .IDLE => .IDLE
    | .DECODE =>
      match s.opcode with
      | 0 => .LDS
      | 1 => .LD
      | 2 => .STS
      | 3 => .ST
      | 4 => .LDCS
      | 5 => .REPEAT
      | 6 => .STCS
      | 7 => .KEY
      | _ => .DECODE
    | .LDS => .IDLE
    | .LD => .IDLE
    | .STS => .IDLE
    | .ST => .IDLE
    | .LDCS => .IDLE
    | .STCS => .IDLE
    | .REPEAT => .CAPTUREREPEAT
    | .KEY => .IDLE
    | .CAPTUREREPEAT =>
      if updateRepeat s ∧ s.writeCount = 0 then .UPDATEREPEAT else .CAPTUREREPEAT
    | .UPDATEREPEAT => .IDLE

/-- Power-on state of the dissector: both FSMs in their first declared
state and every `Signal` reset to 0 — in particular the `opcode` register
resets to 0, which is `PDIOpcodes.LDS`, not IDLE. -/
def dInit : DState where
  pdiReady := false
  process := false
  parityInOK := false
  parityOutOK := false
  data := 0
  opcode := 0
  args := 0
  readCount := 0
  writeCount := 0
  repCount := 0
  updateCounts := false
  repeatData := 0
  fsm1 := .IDLE
  fsm2 := .IDLE

/-- Run the dissector over a list of input cycles. -/
def runD (s : DState) (cycles : List DIn) : DState :=
  cycles.foldl dStep s

/-- Iterate the dissector on a constant input. -/
def dIter (s : DState) (i : DIn) : Nat → DState
  | 0 => s
  | n + 1 => dStep (dIter s i n) i

/-- Input cycles delivering one 9-bit frame pair to the dissector: one
cycle with the ready flag low (so the strobe can fire), then five cycles
with it high — enough for the frame FSM to pass through CHECK-PARITY,
HANDLE-WRITE/HANDLE-READ and SEND-DATA back to IDLE. -/
def frameInputs (din dout : Nat) : List DIn :=
  ⟨din, dout, false⟩ :: List.replicate 5 ⟨din, dout, true⟩

/-- The parity-direction selector of the CHECK-PARITY state (source lines
242-251): the host-write frame is checked when the opcode register is
IDLE or writes remain, the target-read frame otherwise.  `true` means the
active-direction frame has even parity. -/
def activeEven (s : DState) (i : DIn) : Bool :=
  if s.opcode = opIDLE ∨ s.writeCount ≠ 0
  then !xorReduce9 i.pdiDataIn
  else !xorReduce9 i.pdiDataOut

/-- A reachable TAP state in SHIFT-DR entered through EXIT2-DR: from
power-on, RESET →(0) IDLE →(1) SELECT-DR →(0) CAPTURE-DR →(1) SHIFT-DR
→(1) EXIT1-DR →(0) PAUSE-DR →(1) EXIT2-DR →(0) SHIFT-DR, with TDI and TDO
held high.  The single edge sampled in SHIFT-DR on the way (the one that
moves to EXIT1-DR) shifts a 1 into bit 31. -/
def c7Trace : TapState :=
  runTap tapInit
    [⟨false, true, true⟩, ⟨true, true, true⟩, ⟨false, true, true⟩,
     ⟨true, true, true⟩, ⟨true, true, true⟩, ⟨false, true, true⟩,
     ⟨true, true, true⟩, ⟨false, true, true⟩]

/-- A reachable TAP state sitting in UPDATE-DR for the second time with
instruction IDCODE, the first commit having already set `idCodeReady`,
without passing through the IDLE state in between: from power-on,
RESET →(0) IDLE →(1) SELECT-DR →(0) CAPTURE-DR →(1) SHIFT-DR →(1)
EXIT1-DR →(1) UPDATE-DR →(1,& commit) SELECT-DR →(0) CAPTURE-DR →(1)
SHIFT-DR →(1) EXIT1-DR →(1) UPDATE-DR. -/
def c9Trace : TapState :=
  runTap tapInit
    [⟨false, false, false⟩, ⟨true, false, false⟩, ⟨false, false, false⟩,
     ⟨true, false, false⟩, ⟨true, false, false⟩, ⟨true, false, false⟩,
     ⟨true, false, false⟩, ⟨false, false, false⟩, ⟨true, false, false⟩,
     ⟨true, false, false⟩, ⟨true, false, false⟩]

/-- A TAP state in SHIFT-DR with the `shiftDR` flag set, as entered from
CAPTURE-DR; used to instantiate the shift behaviour. -/
def c7WitState : TapState := { tapInit with fsm := .SHIFTDR, shiftDR := true }

/-- A TAP state in UPDATE-DR with instruction IDCODE; used to instantiate
the commit behaviour. -/
def c9WitState : TapState := { tapInit with fsm := .UPDATEDR, insn := 3 }

/-- Claim C1, as stated, is false on the code: the transition the FSM
takes from SELECT-IR on a TMS=0 edge is to CAPTURE-DR (source lines
109-113), not to CAPTURE-IR as §4.1 requires. -/
theorem C1_counterexample :
    (tapStep { tapInit with fsm := .SELECTIR } ⟨false, false, false⟩).fsm
      = TapFsm.CAPTUREDR ∧
    TapFsm.CAPTUREDR ≠ TapFsm.CAPTUREIR := by decide

/-- Claim C1 (amended): after every sampled edge the TAP state follows a
transition table keyed only by (current state, TMS) — in particular it is
independent of the TDI/TDO samples — and that table agrees with the §4.1
table at every entry except SELECT-IR with TMS=0, where the code moves to
CAPTURE-DR instead of CAPTURE-IR (a TMS=1 edge from SELECT-IR does move
to RESET, as §4.1 says). -/
theorem C1_amended :
    (∀ (s : TapState) (i : TapIn), (tapStep s i).fsm = tapFsmNext s.fsm i.tms) ∧
    (∀ (f : TapFsm) (b : Bool),
      tapFsmNext f b = specTapNext f b ∨ (f = TapFsm.SELECTIR ∧ b = false)) ∧
    tapFsmNext TapFsm.SELECTIR false = TapFsm.CAPTUREDR ∧
    specTapNext TapFsm.SELECTIR false = TapFsm.CAPTUREIR ∧
    tapFsmNext TapFsm.SELECTIR true = TapFsm.RESET := by
  refine ⟨fun _ _ => rfl, ?_, rfl, rfl, rfl⟩
  intro f b
  cases f <;> cases b <;> decide

/-- Claim C6, as stated, is false on the code: from CAPTURE-DR (reached
from power-on by edges 0,1,0) five consecutive TMS=1 edges land in
SELECT-IR, not RESET, because the code's CAPTURE-DR state moves to
SHIFT-DR on TMS=1. -/
theorem C6_counterexample :
    (runTap tapInit [⟨false, true, true⟩, ⟨true, true, true⟩, ⟨false, true, true⟩]).fsm
      = TapFsm.CAPTUREDR ∧
    (runTap tapInit ([⟨false, true, true⟩, ⟨true, true, true⟩, ⟨false, true, true⟩] ++
        List.replicate 5 tapAllHigh)).fsm = TapFsm.SELECTIR ∧
    TapFsm.SELECTIR ≠ TapFsm.RESET := by decide

/-- Claim C6 (amended): from every starting TAP state, six consecutive
edges with TMS=1 leave the TAP in RESET (five do not always suffice), and
on the next TMS=0 edge the committed instruction register equals IDCODE. -/
theorem C6_amended (s : TapState) (i1 i2 i3 i4 i5 i6 j : TapIn)
    (h1 : i1.tms = true) (h2 : i2.tms = true) (h3 : i3.tms = true)
    (h4 : i4.tms = true) (h5 : i5.tms = true) (h6 : i6.tms = true)
    (hj : j.tms = false) :
    (tapStep (tapStep (tapStep (tapStep (tapStep (tapStep s i1) i2) i3) i4) i5) i6).fsm
      = TapFsm.RESET ∧
    (tapStep (tapStep (tapStep (tapStep (tapStep (tapStep (tapStep s i1) i2) i3) i4) i5) i6)
        j).insn = idCodeInsn := by
  have hfsm :
      (tapStep (tapStep (tapStep (tapStep (tapStep (tapStep s i1) i2) i3) i4) i5) i6).fsm
        = TapFsm.RESET := by
    show tapFsmNext (tapFsmNext (tapFsmNext (tapFsmNext (tapFsmNext (tapFsmNext
      s.fsm i1.tms) i2.tms) i3.tms) i4.tms) i5.tms) i6.tms = TapFsm.RESET
    rw [h1, h2, h3, h4, h5, h6]
    generalize s.fsm = f
    cases f <;> rfl
  refine ⟨hfsm, ?_⟩
  generalize hT : tapStep (tapStep (tapStep (tapStep (tapStep
    (tapStep s i1) i2) i3) i4) i5) i6 = t at hfsm ⊢
  simp [tapStep, hfsm, hj]

/-- Witness for the amended C6, instantiated at the power-on state with
all pads high during the six reset edges. -/
theorem C6_amended_witness :
    tapAllHigh.tms = true ∧ (⟨false, false, false⟩ : TapIn).tms = false ∧
    ((tapStep (tapStep (tapStep (tapStep (tapStep (tapStep tapInit tapAllHigh) tapAllHigh)
        tapAllHigh) tapAllHigh) tapAllHigh) tapAllHigh).fsm = TapFsm.RESET ∧
     (tapStep (tapStep (tapStep (tapStep (tapStep (tapStep (tapStep tapInit tapAllHigh)
        tapAllHigh) tapAllHigh) tapAllHigh) tapAllHigh) tapAllHigh)
        ⟨false, false, false⟩).insn = idCodeInsn) :=
  ⟨rfl, rfl, C6_amended tapInit tapAllHigh tapAllHigh tapAllHigh tapAllHigh tapAllHigh
    tapAllHigh ⟨false, false, false⟩ rfl rfl rfl rfl rfl rfl rfl⟩

/-- Claim C7, as stated, is false on the code: on the reachable trace
`c7Trace` the TAP is in SHIFT-DR (re-entered via EXIT2-DR), yet an edge
sampled there leaves both data shift registers unchanged, because the
`shiftDR` flag was cleared at EXIT1-DR and re-entry via EXIT2-DR does not
set it again. -/
theorem C7_counterexample :
    c7Trace.fsm = TapFsm.SHIFTDR ∧
    c7Trace.shiftDR = false ∧
    c7Trace.dataIn = 2 ^ 31 ∧
    (tapStep c7Trace ⟨false, true, true⟩).dataIn = c7Trace.dataIn ∧
    c7Trace.dataIn ≠ c7Trace.dataIn / 2 + b2n true * 2 ^ 31 := by decide

/-- Claim C7 (amended): the data shift registers shift by exactly one bit
(in-register taking sampled TDI, out-register sampled TDO) precisely on
edges where the `shiftDR` flag is set, and they hold on every other edge;
the flag implies the TAP is in SHIFT-DR (an invariant preserved by every
edge and true at power-on), so no edge sampled outside SHIFT-DR shifts —
but the flag is set only when SHIFT-DR is entered from CAPTURE-DR, so
edges in SHIFT-DR after re-entry via EXIT2-DR do not shift. -/
theorem C7_amended (s : TapState) (i : TapIn)
    (hinv : s.shiftDR = true → s.fsm = TapFsm.SHIFTDR) :
    tapInit.shiftDR = false ∧
    ((tapStep s i).shiftDR = true → (tapStep s i).fsm = TapFsm.SHIFTDR) ∧
    (s.shiftDR = true →
      (tapStep s i).dataIn = s.dataIn / 2 + b2n i.tdi * 2 ^ 31 ∧
      (tapStep s i).dataOut = s.dataOut / 2 + b2n i.tdo * 2 ^ 31) ∧
    (s.shiftDR = false →
      (tapStep s i).dataIn = s.dataIn ∧ (tapStep s i).dataOut = s.dataOut) := by
  refine ⟨rfl, ?_, ?_, ?_⟩
  · intro h
    cases hf : s.fsm <;> cases ht : i.tms <;> simp_all [tapStep, tapFsmNext]
  · intro h
    simp [tapStep, h]
  · intro h
    simp [tapStep, h]

/-- Witness for the amended C7, instantiated at a SHIFT-DR state with the
flag set and an edge with TDI high, TDO low. -/
theorem C7_amended_witness :
    (c7WitState.shiftDR = true → c7WitState.fsm = TapFsm.SHIFTDR) ∧
    (tapInit.shiftDR = false ∧
     ((tapStep c7WitState ⟨false, true, false⟩).shiftDR = true →
       (tapStep c7WitState ⟨false, true, false⟩).fsm = TapFsm.SHIFTDR) ∧
     (c7WitState.shiftDR = true →
       (tapStep c7WitState ⟨false, true, false⟩).dataIn
         = c7WitState.dataIn / 2 + b2n true * 2 ^ 31 ∧
       (tapStep c7WitState ⟨false, true, false⟩).dataOut
         = c7WitState.dataOut / 2 + b2n false * 2 ^ 31) ∧
     (c7WitState.shiftDR = false →
       (tapStep c7WitState ⟨false, true, false⟩).dataIn = c7WitState.dataIn ∧
       (tapStep c7WitState ⟨false, true, false⟩).dataOut = c7WitState.dataOut)) :=
  ⟨fun _ => rfl, C7_amended c7WitState ⟨false, true, false⟩ (fun _ => rfl)⟩

/-- Claim C9, as stated, is false on the code: on the reachable trace
`c9Trace` the TAP performs a second IDCODE commit at UPDATE-DR without
having passed through IDLE since the first, and the `idCodeReady` flag is
1 both before and after the commit — the commit does not change the
flag's value, so the consuming domain sees no new transition.  The ready
flags are written to 1 at UPDATE-DR, not toggled. -/
theorem C9_counterexample :
    c9Trace.fsm = TapFsm.UPDATEDR ∧
    c9Trace.insn = idCodeInsn ∧
    c9Trace.shiftDR = false ∧
    c9Trace.idCodeReady = true ∧
    (tapStep c9Trace ⟨true, false, false⟩).idCode = c9Trace.dataIn ∧
    (tapStep c9Trace ⟨true, false, false⟩).idCodeReady = c9Trace.idCodeReady := by decide

/-- Claim C9 (amended): a commit at UPDATE-DR sets the corresponding
ready flag to 1 rather than toggling it (IDCODE value and flag when the
instruction is IDCODE, PDI frame pair and flag when it is PDICOM), and
the flags are cleared only in the IDLE state on a TMS=1 edge; hence a
commit changes the flag's value only if the flag was clear, and
consecutive commits with no intervening IDLE passage produce no new
flag transition. -/
theorem C9_amended (s : TapState) (i : TapIn) :
    (s.fsm = TapFsm.UPDATEDR ∧ s.shiftDR = false ∧ s.insn = idCodeInsn →
      (tapStep s i).idCodeReady = true ∧ (tapStep s i).idCode = s.dataIn) ∧
    (s.fsm = TapFsm.UPDATEDR ∧ s.shiftDR = false ∧ s.insn = pdiComInsn →
      (tapStep s i).pdiReady = true ∧
      (tapStep s i).pdiDataIn = s.dataIn / 2 ^ 22 % 2 ^ 9 ∧
      (tapStep s i).pdiDataOut = s.dataOut / 2 ^ 22 % 2 ^ 9) ∧
    (s.fsm = TapFsm.IDLE ∧ i.tms = true →
      (tapStep s i).idCodeReady = false ∧ (tapStep s i).pdiReady = false) := by
  refine ⟨?_, ?_, ?_⟩
  · rintro ⟨hf, hs, hi⟩
    simp [tapStep, hf, hs, hi, idCodeInsn]
  · rintro ⟨hf, hs, hi⟩
    simp [tapStep, hf, hs, hi, idCodeInsn, pdiComInsn]
  · rintro ⟨hf, ht⟩
    simp [tapStep, hf, ht]

/-- Witness for the amended C9, instantiated at an UPDATE-DR state with
instruction IDCODE. -/
theorem C9_amended_witness :
    (tapStep c9WitState ⟨false, false, false⟩).idCodeReady = true ∧
    (tapStep c9WitState ⟨false, false, false⟩).idCode = c9WitState.dataIn :=
  (C9_amended c9WitState ⟨false, false, false⟩).1 ⟨rfl, rfl, rfl⟩

/-- The dissector run of claim C2: the frame 0x120 (data byte 0x20,
parity bit 1, even parity) delivered while the opcode register is IDLE. -/
def c2Run : DState := runD { dInit with opcode := opIDLE } (frameInputs 0x120 0)

/-- The dissector run of claim C4: frame 0x1A1 (REPEAT command byte 0xA1,
argument low bits 1) followed by frames 0x101 and 0x102 (payload bytes
0x01, 0x02), all even parity, from an IDLE opcode register. -/
def c4Run : DState :=
  runD { dInit with opcode := opIDLE }
    (frameInputs 0x1A1 0 ++ frameInputs 0x101 0 ++ frameInputs 0x102 0)

/-- The dissector run of claim C8: the all-zero frame (even parity)
delivered to the power-on state. -/
def c8Run : DState := runD dInit (frameInputs 0 0)

/-- The dissector run of claim C10: the frame 0x0F0 (data byte 0xF0, top
nibble 0xF, parity bit 0, even parity) delivered while the opcode
register is IDLE. -/
def c10Run : DState := runD { dInit with opcode := opIDLE } (frameInputs 0x0F0 0)

/-- Claim C2 evaluated on the code at its failing input: after the
command byte 0x20 arrives with the opcode register IDLE, the latched
opcode is 1 (`PDIOpcodes.LD`, from bits 5..7 of the byte), not 2 (STS),
and `writeCount` is still 0, not 2 — the count FSM is still in IDLE, so
no counts were programmed and no STS transaction opened. -/
theorem C2_code_eval :
    c2Run.opcode = 1 ∧ (1 : Nat) ≠ 2 ∧
    c2Run.writeCount = 0 ∧ (0 : Nat) ≠ 2 ∧
    c2Run.readCount = 0 ∧
    c2Run.data = 0x20 ∧
    c2Run.fsm2 = DFsm2.IDLE ∧
    c2Run.fsm1 = DFsm1.IDLE := by decide

/-- Claim C4 evaluated on the code at its failing input: after the
REPEAT command 0xA1 and payload bytes 0x01, 0x02, `repCount` is still 0
(not 0x0102) and the count FSM is still in IDLE — `writeCount` was never
set, so the payload frames were routed to the read path and `readCount`
wrapped to 2^32 - 2. -/
theorem C4_code_eval :
    c4Run.opcode = opREPEAT ∧
    c4Run.args = 1 ∧
    c4Run.repCount = 0 ∧ (0 : Nat) ≠ 0x0102 ∧
    c4Run.fsm2 = DFsm2.IDLE ∧
    c4Run.writeCount = 0 ∧
    c4Run.readCount = 2 ^ 32 - 2 := by decide

/-- Claim C8 evaluated on the code at its failing input: in the power-on
state the opcode register is 0 (`PDIOpcodes.LDS`, not IDLE) and both
counters are 0, yet the very first frame decrements `readCount`, wrapping
it from 0 to 2^32 - 1, and the opcode register does not return to IDLE. -/
theorem C8_code_eval :
    dInit.opcode = 0 ∧ dInit.opcode ≠ opIDLE ∧
    dInit.readCount = 0 ∧ dInit.writeCount = 0 ∧
    c8Run.readCount = 2 ^ 32 - 1 ∧
    c8Run.opcode = 0 ∧
    c8Run.fsm1 = DFsm1.IDLE := by decide

/-- Claim C10 evaluated on the code at its failing input: a command byte
0xF0 arriving while the opcode register is IDLE is decoded as 7
(`PDIOpcodes.KEY`), but `writeCount` stays 0 — the count FSM never leaves
IDLE, so no 8-byte write transaction opens. -/
theorem C10_code_eval :
    c10Run.opcode = 7 ∧
    c10Run.writeCount = 0 ∧ (0 : Nat) ≠ 8 ∧
    c10Run.fsm2 = DFsm2.IDLE := by decide

/-- Claim C5, as stated, is false on the code: with accumulator content
1, the width-1 assembly is 1 but the width-2 assembly is 0x0100, whose
low-order byte is 0 — the two interpretations do not agree on their
shared low-order byte, because each wider case places the previously
shifted bytes in the HIGH part and appends the new byte at the low end. -/
theorem C5_counterexample :
    assembleRepeat 0 1 = 1 ∧
    assembleRepeat 1 1 = 2 ^ 8 ∧
    assembleRepeat 1 1 % 2 ^ 8 ≠ assembleRepeat 0 1 := by decide

/-- Claim C5 (amended): for the width steps 1→2 and 2→3 each wider
assembly equals the narrower assembly shifted up one byte plus the next
more-significant accumulator byte — so the interpretations share their
bytes as the HIGH part of the wider value, appending at the low-order
end — while the width-4 assembly does not extend the width-3 one: at
accumulator content 1 it yields 0 where the extension pattern would give
2^24, since its concatenation reuses bytes 2..3 and truncates away
byte 0. -/
theorem C5_amended :
    (∀ d : Nat,
      assembleRepeat 1 d = assembleRepeat 0 d * 2 ^ 8 + d / 2 ^ 8 % 2 ^ 8 ∧
      assembleRepeat 2 d = assembleRepeat 1 d * 2 ^ 8 + d / 2 ^ 16 % 2 ^ 8) ∧
    assembleRepeat 3 1 = 0 ∧
    assembleRepeat 2 1 * 2 ^ 8 + 1 / 2 ^ 24 % 2 ^ 8 = 2 ^ 24 ∧
    (0 : Nat) ≠ 2 ^ 24 := by
  refine ⟨fun d => ⟨?_, ?_⟩, by decide, by decide, by decide⟩
  · simp only [assembleRepeat]
    omega
  · simp only [assembleRepeat]
    omega

/-- A dissector state with the opcode register IDLE and no frame pending;
used to instantiate the parity behaviour. -/
def c3WitState : DState := { dInit with opcode := opIDLE }

/-- Claim C3: from any dissector state at rest (frame FSM in IDLE, no
strobe pending), delivering one 9-bit frame pair whose active-direction
side (host-write when the opcode register is IDLE or writes remain,
target-read otherwise) has even parity produces no error pulse and one
data-ready pulse, the frame FSM returning to IDLE; if the active parity
is odd, exactly one error pulse is produced (on the PARITY-ERROR cycle
and on no other), no data-ready pulse is produced for the frame, and the
opcode register is forced to IDLE, abandoning the transaction so that no
later frame of it can pulse data-ready. -/
theorem C3_parity (s : DState) (din dout : Nat)
    (hf1 : s.fsm1 = DFsm1.IDLE) (hf2 : s.fsm2 = DFsm2.IDLE)
    (hpr : s.pdiReady = false) (hpc : s.process = false)
    (hdin : din < 2 ^ 9) (hdout : dout < 2 ^ 9) :
    (activeEven s ⟨din, dout, true⟩ = true →
      ¬errorPulse (dIter s ⟨din, dout, true⟩ 1) ∧
      ¬errorPulse (dIter s ⟨din, dout, true⟩ 2) ∧
      ¬errorPulse (dIter s ⟨din, dout, true⟩ 3) ∧
      ¬errorPulse (dIter s ⟨din, dout, true⟩ 4) ∧
      ¬errorPulse (dIter s ⟨din, dout, true⟩ 5) ∧
      readyPulse (dIter s ⟨din, dout, true⟩ 4) ∧
      (dIter s ⟨din, dout, true⟩ 5).fsm1 = DFsm1.IDLE) ∧
    (activeEven s ⟨din, dout, true⟩ = false →
      errorPulse (dIter s ⟨din, dout, true⟩ 3) ∧
      ¬errorPulse (dIter s ⟨din, dout, true⟩ 1) ∧
      ¬errorPulse (dIter s ⟨din, dout, true⟩ 2) ∧
      ¬errorPulse (dIter s ⟨din, dout, true⟩ 4) ∧
      ¬readyPulse (dIter s ⟨din, dout, true⟩ 1) ∧
      ¬readyPulse (dIter s ⟨din, dout, true⟩ 2) ∧
      ¬readyPulse (dIter s ⟨din, dout, true⟩ 3) ∧
      ¬readyPulse (dIter s ⟨din, dout, true⟩ 4) ∧
      (dIter s ⟨din, dout, true⟩ 4).opcode = opIDLE ∧
      (dIter s ⟨din, dout, true⟩ 4).fsm1 = DFsm1.IDLE) := by
  obtain ⟨s1, hs1⟩ : ∃ t, dStep s ⟨din, dout, true⟩ = t := ⟨_, rfl⟩
  obtain ⟨s2, hs2⟩ : ∃ t, dStep s1 ⟨din, dout, true⟩ = t := ⟨_, rfl⟩
  obtain ⟨s3, hs3⟩ : ∃ t, dStep s2 ⟨din, dout, true⟩ = t := ⟨_, rfl⟩
  obtain ⟨s4, hs4⟩ : ∃ t, dStep s3 ⟨din, dout, true⟩ = t := ⟨_, rfl⟩
  obtain ⟨s5, hs5⟩ : ∃ t, dStep s4 ⟨din, dout, true⟩ = t := ⟨_, rfl⟩
  have e1 : dIter s ⟨din, dout, true⟩ 1 = s1 := by rw [← hs1]; rfl
  have e2 : dIter s ⟨din, dout, true⟩ 2 = s2 := by rw [← hs2, ← hs1]; rfl
  have e3 : dIter s ⟨din, dout, true⟩ 3 = s3 := by rw [← hs3, ← hs2, ← hs1]; rfl
  have e4 : dIter s ⟨din, dout, true⟩ 4 = s4 := by
    rw [← hs4, ← hs3, ← hs2, ← hs1]; rfl
  have e5 : dIter s ⟨din, dout, true⟩ 5 = s5 := by
    rw [← hs5, ← hs4, ← hs3, ← hs2, ← hs1]; rfl
  rw [e1, e2, e3, e4, e5]
  -- cycle 1: the strobe fires, the parity flags latch, opcode and
  -- writeCount hold
  have a1 : s1.fsm1 = DFsm1.IDLE := by rw [← hs1]; simp [dStep, hf1, hpc]
  have a2 : s1.process = true := by rw [← hs1]; simp [dStep, pdiStrobe, hpr]
  have a3 : s1.parityInOK = !xorReduce9 din := by
    rw [← hs1]; simp [dStep, pdiStrobe, hpr]
  have a4 : s1.parityOutOK = !xorReduce9 dout := by
    rw [← hs1]; simp [dStep, pdiStrobe, hpr]
  have a5 : s1.pdiReady = true := by rw [← hs1]; simp [dStep]
  have a6 : s1.opcode = s.opcode := by rw [← hs1]; simp [dStep, hf1]
  have a7 : s1.writeCount = s.writeCount := by rw [← hs1]; simp [dStep, hf1, hf2]
  have a8 : s1.fsm2 = DFsm2.IDLE := by rw [← hs1]; simp [dStep, hf2]
  -- cycle 2: the frame FSM enters CHECK-PARITY, everything else holds
  have b1 : s2.fsm1 = DFsm1.CHECKPARITY := by rw [← hs2]; simp [dStep, a1, a2]
  have b2 : s2.parityInOK = !xorReduce9 din := by
    rw [← hs2]; simp [dStep, pdiStrobe, a5, a3]
  have b3 : s2.parityOutOK = !xorReduce9 dout := by
    rw [← hs2]; simp [dStep, pdiStrobe, a5, a4]
  have b4 : s2.opcode = s.opcode := by rw [← hs2]; simp [dStep, a1, a6]
  have b5 : s2.writeCount = s.writeCount := by
    rw [← hs2]; simp [dStep, a1, a8, a7]
  constructor
  · -- even active-direction parity: HANDLE then SEND-DATA, no error
    intro hae
    by_cases hdir : s.opcode = opIDLE ∨ s.writeCount ≠ 0
    · have hp : xorReduce9 din = false := by
        simpa [activeEven, hdir] using hae
      have c1 : s3.fsm1 = DFsm1.HANDLEWRITE := by
        rw [← hs3]; simp [dStep, b1, b4, b5, hdir, b2, hp]
      have d1 : s4.fsm1 = DFsm1.SENDDATA := by rw [← hs4]; simp [dStep, c1]
      have d2 : s5.fsm1 = DFsm1.IDLE := by rw [← hs5]; simp [dStep, d1]
      exact ⟨by simp [errorPulse, a1], by simp [errorPulse, b1],
        by simp [errorPulse, c1], by simp [errorPulse, d1],
        by simp [errorPulse, d2], by simp [readyPulse, d1], d2⟩
    · have hp : xorReduce9 dout = false := by
        simpa [activeEven, hdir] using hae
      have c1 : s3.fsm1 = DFsm1.HANDLEREAD := by
        rw [← hs3]; simp [dStep, b1, b4, b5, hdir, b3, hp]
      have d1 : s4.fsm1 = DFsm1.SENDDATA := by rw [← hs4]; simp [dStep, c1]
      have d2 : s5.fsm1 = DFsm1.IDLE := by rw [← hs5]; simp [dStep, d1]
      exact ⟨by simp [errorPulse, a1], by simp [errorPulse, b1],
        by simp [errorPulse, c1], by simp [errorPulse, d1],
        by simp [errorPulse, d2], by simp [readyPulse, d1], d2⟩
  · -- odd active-direction parity: PARITY-ERROR, opcode forced to IDLE
    intro hae
    by_cases hdir : s.opcode = opIDLE ∨ s.writeCount ≠ 0
    · have hp : xorReduce9 din = true := by
        simpa [activeEven, hdir] using hae
      have c1 : s3.fsm1 = DFsm1.PARITYERROR := by
        rw [← hs3]; simp [dStep, b1, b4, b5, hdir, b2, hp]
      have f1 : s4.fsm1 = DFsm1.IDLE := by rw [← hs4]; simp [dStep, c1]
      have f2 : s4.opcode = opIDLE := by rw [← hs4]; simp [dStep, c1]
      exact ⟨by simp [errorPulse, c1], by simp [errorPulse, a1],
        by simp [errorPulse, b1], by simp [errorPulse, f1],
        by simp [readyPulse, a1], by simp [readyPulse, b1],
        by simp [readyPulse, c1], by simp [readyPulse, f1], f2, f1⟩
    · have hp : xorReduce9 dout = true := by
        simpa [activeEven, hdir] using hae
      have c1 : s3.fsm1 = DFsm1.PARITYERROR := by
        rw [← hs3]; simp [dStep, b1, b4, b5, hdir, b3, hp]
      have f1 : s4.fsm1 = DFsm1.IDLE := by rw [← hs4]; simp [dStep, c1]
      have f2 : s4.opcode = opIDLE := by rw [← hs4]; simp [dStep, c1]
      exact ⟨by simp [errorPulse, c1], by simp [errorPulse, a1],
        by simp [errorPulse, b1], by simp [errorPulse, f1],
        by simp [readyPulse, a1], by simp [readyPulse, b1],
        by simp [readyPulse, c1], by simp [readyPulse, f1], f2, f1⟩

/-- Witness for C3, instantiated at the IDLE-opcode rest state with the
even-parity frame 0x120 on the host-write side. -/
theorem C3_parity_witness :
    ¬errorPulse (dIter c3WitState ⟨0x120, 0, true⟩ 1) ∧
    ¬errorPulse (dIter c3WitState ⟨0x120, 0, true⟩ 2) ∧
    ¬errorPulse (dIter c3WitState ⟨0x120, 0, true⟩ 3) ∧
    ¬errorPulse (dIter c3WitState ⟨0x120, 0, true⟩ 4) ∧
    ¬errorPulse (dIter c3WitState ⟨0x120, 0, true⟩ 5) ∧
    readyPulse (dIter c3WitState ⟨0x120, 0, true⟩ 4) ∧
    (dIter c3WitState ⟨0x120, 0, true⟩ 5).fsm1 = DFsm1.IDLE :=
  (C3_parity c3WitState 0x120 0 rfl rfl rfl rfl (by decide) (by decide)).1 (by decide)

end JTAGPDI
